import Mathlib

/-!
Verification of the OpenStack cloud-provider lookup layer
(`pkg/cloudprovider/providers/openstack/openstack.go` and
`openstack_instances.go`).

The Go code is shallowly embedded:
* the untyped per-network address blob (`interface{}`) becomes the
  inductive `Jval` of JSON-like runtime values;
* `servers.Server` becomes the structure `Server` keeping the fields the
  code reads (`ID`, `Name`, `Status`, `Addresses`, `AccessIPv4`,
  `AccessIPv6`);
* the paginated compute API is modelled by passing the list of pages that
  the API returns for the issued filter; `pager.EachPage` becomes a
  structural recursion over that list;
* file and HTTP I/O of the instance-identity resolver become explicit
  parameters (`Option` for fallible reads);
* Go's `(value, error)` returns become `Except`, except where the empty
  zero value returned alongside an error matters, where a pair is used.
-/

/-- Runtime value of Go's `interface{}` as produced by JSON decoding:
`nil`, booleans, numbers, strings, `[]interface{}` and
`map[string]interface{}` (modelled as an association list in insertion
order, keys unique). -/
inductive Jval where
  | null : Jval
  | bool (b : Bool) : Jval
  | num (n : Int) : Jval
  | str (s : String) : Jval
  | arr (l : List Jval) : Jval
  | obj (l : List (String × Jval)) : Jval

/-- Go map lookup `props[k]` over the association-list model (keys are
unique in a Go map, so the first hit is the value). -/
def lookupKey (props : List (String × Jval)) (k : String) : Option Jval :=
  match props with
  | [] => none
  | (k2, v) :: rest => if k2 == k then some v else lookupKey rest k

/-- Whether a `Jval` is a `map[string]interface{}` (the type assertion
`netblob.(map[string]interface{})` succeeds). -/
def isObjMap : Jval → Bool
  | Jval.obj _ => true
  | _ => false

/-- Loop body of `findAddrs` (openstack.go lines 315-343): iterate the
networks, inspect only the head descriptor of each network's list, and
`continue` on every malformed shape, appending `addr` when the
`OS-EXT-IPS:type` tag equals the requested one. -/
def findAddrsLoop (iptype : String) (nets : List (String × Jval)) (ret : List String) :
    List String :=
  match nets with
  | [] => ret
  | (_, listblob) :: rest =>
    match listblob with
    | Jval.arr (first :: _) =>
      match first with
      | Jval.obj props =>
        match lookupKey props "addr" with
        | some (Jval.str addr) =>
          match lookupKey props "OS-EXT-IPS:type" with
          | some (Jval.str ipt) =>
            if ipt == iptype then findAddrsLoop iptype rest (ret ++ [addr])
            else findAddrsLoop iptype rest ret
          | _ => findAddrsLoop iptype rest ret
        | _ => findAddrsLoop iptype rest ret
      | _ => findAddrsLoop iptype rest ret
    | _ => findAddrsLoop iptype rest ret

/-- `findAddrs` (openstack.go lines 307-345): extract from the opaque
address blob the address strings whose type tag equals `iptype`; a blob
that is not a map of networks yields the empty list. -/
def findAddrs (netblob : Jval) (iptype : String) : List String :=
  match netblob with
  | Jval.obj networks => findAddrsLoop iptype networks []
  | _ => []

/-- Specification-side reading of one network entry: the address carried
by the first descriptor of the network's list when that descriptor is
well-formed (`addr` and `OS-EXT-IPS:type` present as strings) and its tag
equals the requested one; `none` otherwise. Defined independently of
`findAddrsLoop` to characterise it. -/
def firstDescAddr (iptype : String) (listblob : Jval) : Option String :=
  match listblob with
  | Jval.arr (Jval.obj props :: _) =>
    match lookupKey props "addr", lookupKey props "OS-EXT-IPS:type" with
    | some (Jval.str addr), some (Jval.str ipt) =>
      if ipt == iptype then some addr else none
    | _, _ => none
  | _ => none

/-- The fields of `servers.Server` that the code reads: `ID`, `Name`,
`Status`, the opaque `Addresses` blob and the legacy single-value
`AccessIPv4` / `AccessIPv6` fields. -/
structure Server where
  id : String
  name : String
  status : String
  addresses : Jval
  accessIPv4 : String
  accessIPv6 : String

/-- The flat error values of openstack.go lines 44-47 that the modelled
operations produce. -/
inductive Err where
  | notFound : Err
  | multipleResults : Err
  | noAddressFound : Err
deriving DecidableEq

/-- The `pager.EachPage` loop of `getServerByName` (openstack.go lines
283-293): each page's servers are appended to `serverList`; as soon as the
accumulated list holds more than one server the callback stops the pager
with `ErrMultipleResults`. `pages` is the paginated response of the
compute API to the issued filter (name anchored, status ACTIVE), so the
servers in `pages` are exactly the matching ACTIVE servers. -/
def getServerByNamePages (pages : List (List Server)) (serverList : List Server) :
    Except Err (List Server) :=
  match pages with
  | [] => Except.ok serverList
  | page :: rest =>
    let serverList2 := serverList ++ page
    if serverList2.length > 1 then Except.error Err.multipleResults
    else getServerByNamePages rest serverList2

/-- `getServerByName` (openstack.go lines 274-305): run the pager, then
map zero matches to `ErrNotFound`, more than one to `ErrMultipleResults`,
and exactly one to that server. -/
def getServerByName (pages : List (List Server)) : Except Err Server :=
  match getServerByNamePages pages [] with
  | Except.error e => Except.error e
  | Except.ok serverList =>
    match serverList with
    | [] => Except.error Err.notFound
    | [s] => Except.ok s
    | _ => Except.error Err.multipleResults

/-- Outcome of `getServerByAddress`: a Go runtime panic (index out of
range) is distinguished from ordinary error returns. -/
inductive AddrLookup where
  | indexOutOfRange : AddrLookup
  | err (e : Err) : AddrLookup
  | found (s : Server) : AddrLookup

/-- Per-page server loop of `getServerByAddress` (openstack.go lines
418-423): `findAddrs(server.Addresses, "fixed")[0]` indexes the extracted
list without checking it is non-empty, so a server with no extractable
fixed address is a runtime panic, modelled as `indexOutOfRange`. -/
def getServerByAddressScan (ip : String) (srvs : List Server) (acc : List Server) :
    Option (List Server) :=
  match srvs with
  | [] => some acc
  | server :: rest =>
    match findAddrs server.addresses "fixed" with
    | [] => none
    | addr :: _ =>
      if addr == ip then getServerByAddressScan ip rest (acc ++ [server])
      else getServerByAddressScan ip rest acc

/-- Page loop of `getServerByAddress` over the paginated list of all
ACTIVE servers. -/
def getServerByAddressPages (ip : String) (pages : List (List Server)) (acc : List Server) :
    Option (List Server) :=
  match pages with
  | [] => some acc
  | page :: rest =>
    match getServerByAddressScan ip page acc with
    | none => none
    | some acc2 => getServerByAddressPages ip rest acc2

/-- `getServerByAddress` (openstack.go lines 405-437): list all ACTIVE
servers, keep those whose first extracted fixed address equals `ip`, then
apply the zero/one/many policy; a server with zero extractable fixed
addresses panics. -/
def getServerByAddress (pages : List (List Server)) (ip : String) : AddrLookup :=
  match getServerByAddressPages ip pages [] with
  | none => AddrLookup.indexOutOfRange
  | some serverList =>
    match serverList with
    | [] => AddrLookup.err Err.notFound
    | [s] => AddrLookup.found s
    | _ => AddrLookup.err Err.multipleResults

/-- Address selection of `getAddressByName` (openstack.go lines 353-373)
on an already-fetched server: start with the empty string, fill it from
the first extracted fixed address, then the first floating address, then
`AccessIPv4`, then `AccessIPv6`, and fail with `ErrNoAddressFound` when it
is still empty. -/
def selectAddress (srv : Server) : Except Err String :=
  let s0 : String := ""
  let s1 := if s0 == "" then
      match findAddrs srv.addresses "fixed" with
      | tmp0 :: _ => tmp0
      | [] => s0
    else s0
  let s2 := if s1 == "" then
      match findAddrs srv.addresses "floating" with
      | tmp0 :: _ => tmp0
      | [] => s1
    else s1
  let s3 := if s2 == "" then srv.accessIPv4 else s2
  let s4 := if s3 == "" then srv.accessIPv6 else s3
  if s4 == "" then Except.error Err.noAddressFound else Except.ok s4

/-- `getAddressByName` (openstack.go lines 347-374): resolve the name to
exactly one server, then select its address. -/
def getAddressByName (pages : List (List Server)) : Except Err String :=
  match getServerByName pages with
  | Except.error e => Except.error e
  | Except.ok srv => selectAddress srv

/-- The four candidate values of the selection policy in their priority
order: first extracted fixed address, first extracted floating address,
legacy `AccessIPv4`, legacy `AccessIPv6` (empty string when a list is
empty). -/
def addrCandidates (srv : Server) : List String :=
  [(findAddrs srv.addresses "fixed").headD "",
   (findAddrs srv.addresses "floating").headD "",
   srv.accessIPv4, srv.accessIPv6]

/-- First non-empty string of a candidate list, the specification-side
rendering of the priority-ordered selection. -/
def firstNonEmpty : List String → Option String
  | [] => none
  | c :: rest => if c = "" then firstNonEmpty rest else some c

/-- `ExternalID` (openstack_instances.go lines 97-103) as Go returns it:
the value together with the optional error, keeping the zero-value `""`
that accompanies a failed lookup. -/
def externalID (pages : List (List Server)) : String × Option Err :=
  match getServerByName pages with
  | Except.error e => ("", some e)
  | Except.ok srv => (srv.id, none)

/-- `InstanceID` (openstack_instances.go lines 106-114): the server id
prefixed with a slash, or the lookup error with the zero value `""`. -/
def instanceID (pages : List (List Server)) : String × Option Err :=
  match getServerByName pages with
  | Except.error e => ("", some e)
  | Except.ok srv => ("/" ++ srv.id, none)

/-- The two node-address kinds the code produces (`api.NodeInternalIP`
for fixed addresses, `api.NodeExternalIP` for floating and legacy ones). -/
inductive NodeAddressType where
  | internalIP : NodeAddressType
  | externalIP : NodeAddressType
deriving DecidableEq

/-- `api.NodeAddress`: a kind together with the literal address string. -/
structure NodeAddress where
  type : NodeAddressType
  address : String
deriving DecidableEq

/-- Modelled from the spec: `api.AddToNodeAddresses` lives in
`pkg/api` of the wider repository, outside the given sources; per the
spec, duplicates by (kind, address) are suppressed, i.e. each given
address is appended only when an equal entry is not already present. -/
def addToNodeAddresses (addrs : List NodeAddress) (adds : List NodeAddress) :
    List NodeAddress :=
  adds.foldl (fun acc a => if a ∈ acc then acc else acc ++ [a]) addrs

/-- `NodeAddresses` (openstack_instances.go lines 56-94): resolve the
name, emit every extracted fixed address as `InternalIP`, then every
extracted floating address as `ExternalIP`, then add the legacy
`AccessIPv6` and `AccessIPv4` values (in that order) as `ExternalIP`
through `api.AddToNodeAddresses`. -/
def nodeAddresses (pages : List (List Server)) : Except Err (List NodeAddress) :=
  match getServerByName pages with
  | Except.error e => Except.error e
  | Except.ok srv =>
    let addrs := (findAddrs srv.addresses "fixed").map
      (fun a => NodeAddress.mk NodeAddressType.internalIP a)
    let addrs2 := addrs ++ (findAddrs srv.addresses "floating").map
      (fun a => NodeAddress.mk NodeAddressType.externalIP a)
    let addrs3 := addToNodeAddresses addrs2
      [NodeAddress.mk NodeAddressType.externalIP srv.accessIPv6,
       NodeAddress.mk NodeAddressType.externalIP srv.accessIPv4]
    Except.ok addrs3

/-- Specification-side fixed part of the node-address sequence. -/
def fixedPart (srv : Server) : List NodeAddress :=
  (findAddrs srv.addresses "fixed").map
    (fun a => NodeAddress.mk NodeAddressType.internalIP a)

/-- Specification-side floating part of the node-address sequence. -/
def floatingPart (srv : Server) : List NodeAddress :=
  (findAddrs srv.addresses "floating").map
    (fun a => NodeAddress.mk NodeAddressType.externalIP a)

/-- Specification-side legacy part of the node-address sequence: the
`AccessIPv6` entry when it does not duplicate an earlier entry, then the
`AccessIPv4` entry when it does not duplicate an earlier entry either. -/
def legacyPart (srv : Server) : List NodeAddress :=
  let base := fixedPart srv ++ floatingPart srv
  let v6 := NodeAddress.mk NodeAddressType.externalIP srv.accessIPv6
  let v4 := NodeAddress.mk NodeAddressType.externalIP srv.accessIPv4
  let p6 : List NodeAddress := if v6 ∈ base then [] else [v6]
  p6 ++ (if v4 ∈ base ++ p6 then [] else [v4])

/-- Errors of the instance-identity resolver (`readInstanceID`): a failed
HTTP GET, a non-200 status, an unparseable body, or a missing/empty
`uuid` attribute. -/
inductive MetaErr where
  | httpGetFailed : MetaErr
  | unexpectedStatus (code : Nat) : MetaErr
  | jsonParseError : MetaErr
  | emptyUUID : MetaErr
deriving DecidableEq

/-- An HTTP response of the metadata server: the status code and the
body, the latter given as its JSON-decoding outcome (`none` when the body
cannot be read or is not valid JSON). -/
structure HttpResp where
  status : Nat
  body : Option Jval

/-- `parseMetadataUUID` (openstack.go lines 228-245): `json.Unmarshal`
into `struct{ UUID string }` then reject an empty uuid. Unmarshalling a
JSON object without a `uuid` key, or JSON `null`, leaves the zero value
`""`, which the empty-uuid check rejects; invalid JSON, a non-object
document or a non-string `uuid` value is an unmarshalling error. -/
def parseMetadataUUID (body : Option Jval) : Except MetaErr String :=
  match body with
  | none => Except.error MetaErr.jsonParseError
  | some Jval.null => Except.error MetaErr.emptyUUID
  | some (Jval.obj props) =>
    match lookupKey props "uuid" with
    | some (Jval.str uuid) =>
      if uuid == "" then Except.error MetaErr.emptyUUID else Except.ok uuid
    | some _ => Except.error MetaErr.jsonParseError
    | none => Except.error MetaErr.emptyUUID
  | some _ => Except.error MetaErr.jsonParseError

/-- Leading-whitespace removal over a character list. -/
def trimLeftChars (l : List Char) : List Char :=
  match l with
  | [] => []
  | c :: rest => if c.isWhitespace then trimLeftChars rest else c :: rest

/-- `strings.TrimSpace`: remove leading and trailing whitespace (the
trailing side via reversal). -/
def trimSpace (s : String) : String :=
  String.mk ((trimLeftChars (trimLeftChars s.data).reverse).reverse)

/-- `readInstanceID` (openstack.go lines 182-224). `file` is the outcome
of reading `/var/lib/cloud/data/instance-id` (`none` when the read
fails), `resp` the outcome of `http.Get` on the metadata URL (`none` when
the request fails). A readable marker file whose whitespace-trimmed
content is non-empty short-circuits the HTTP path; otherwise the resolver
requires status 200 and parses the body for the uuid. -/
def readInstanceID (file : Option String) (resp : Option HttpResp) :
    Except MetaErr String :=
  let fallback : Except MetaErr String :=
    match resp with
    | none => Except.error MetaErr.httpGetFailed
    | some r =>
      if r.status ≠ 200 then Except.error (MetaErr.unexpectedStatus r.status)
      else parseMetadataUUID r.body
  match file with
  | some content =>
    let id := trimSpace content
    if id ≠ "" then Except.ok id else fallback
  | none => fallback

/-- Construction failures of `newOpenStack`: failed authentication or a
missing network/compute endpoint for the region. Identity-resolution
failure is deliberately absent. -/
inductive NewOSErr where
  | authFailed : NewOSErr
  | networkEndpointFailed : NewOSErr
  | computeEndpointFailed : NewOSErr
deriving DecidableEq

/-- The `OpenStack` provider value with the fields the modelled claims
read; the opaque client handles are numbers standing for the values
returned by the SDK. -/
structure OpenStackProvider where
  provider : Nat
  compute : Nat
  network : Nat
  region : String
  localInstanceID : String

/-- `newOpenStack` (openstack.go lines 143-180): authenticate, then
resolve the instance id (Go's `readInstanceID` returns the zero value
`""` alongside every error, and `newOpenStack` only logs the failure),
then resolve the network and compute endpoints, failing on either; the
constructed value stores whatever id resolution produced. -/
def newOpenStack (auth : Option Nat) (file : Option String) (resp : Option HttpResp)
    (network : Option Nat) (compute : Option Nat) (region : String) :
    Except NewOSErr OpenStackProvider :=
  match auth with
  | none => Except.error NewOSErr.authFailed
  | some provider =>
    let id := match readInstanceID file resp with
      | Except.ok i => i
      | Except.error _ => ""
    match network with
    | none => Except.error NewOSErr.networkEndpointFailed
    | some nw =>
      match compute with
      | none => Except.error NewOSErr.computeEndpointFailed
      | some cp =>
        Except.ok (OpenStackProvider.mk provider cp nw region id)

/-- The characters `regexp.QuoteMeta` escapes (Go's `specialBytes`):
backslash, dot, plus, star, question mark, parentheses, pipe, square and
curly brackets, caret and dollar. -/
def specialChars : List Char :=
  ['\\', '.', '+', '*', '?', '(', ')', '|', '[', ']', '\x7b', '\x7d', '^', '$']

/-- `regexp.QuoteMeta` over the character list: prefix every special
character with a backslash. -/
def quoteMetaChars : List Char → List Char
  | [] => []
  | c :: rest =>
    if c ∈ specialChars then '\\' :: c :: quoteMetaChars rest
    else c :: quoteMetaChars rest

/-- `regexp.QuoteMeta` on strings. -/
def quoteMeta (s : String) : String :=
  String.mk (quoteMetaChars s.data)

/-- The name filter `getServerByName` sends to the compute list API
(openstack.go line 276): `fmt.Sprintf` of `"^%s$"` applied to the quoted
name. -/
def getServerByNameFilter (name : String) : String :=
  "^" ++ quoteMeta name ++ "$"

/-- Tokens of the regular-expression fragment the filter can contain: a
literal character (possibly produced by a backslash escape), the `.`
wildcard, and the two anchors. -/
inductive RTok where
  | lit (c : Char) : RTok
  | anyChar : RTok
  | anchorStart : RTok
  | anchorEnd : RTok
deriving DecidableEq

/-- Scan a pattern into tokens: a backslash makes the next character a
literal, an unescaped dot is the wildcard, unescaped caret and dollar are
anchors, and everything else is a literal. -/
def parsePat (l : List Char) : List RTok :=
  match l with
  | [] => []
  | c :: rest =>
    if c = '\\' then
      match rest with
      | [] => [RTok.lit '\\']
      | d :: rest2 => RTok.lit d :: parsePat rest2
    else if c = '.' then RTok.anyChar :: parsePat rest
    else if c = '^' then RTok.anchorStart :: parsePat rest
    else if c = '$' then RTok.anchorEnd :: parsePat rest
    else RTok.lit c :: parsePat rest

/-- Match a token sequence against the text starting at the current
position: an exhausted pattern has matched (search semantics), the end
anchor demands the end of the text, a literal demands its character, and
the wildcard consumes any character. A start anchor away from the front
of the pattern matches nowhere. -/
def matchFrom : List RTok → List Char → Bool
  | [], _ => true
  | RTok.anchorEnd :: ts, [] => matchFrom ts []
  | RTok.anchorEnd :: _, _ :: _ => false
  | RTok.anchorStart :: _, _ => false
  | RTok.anyChar :: ts, _ :: xs => matchFrom ts xs
  | RTok.anyChar :: _, [] => false
  | RTok.lit c :: ts, x :: xs => (c == x) && matchFrom ts xs
  | RTok.lit _ :: _, [] => false

/-- All suffixes of a character list, longest first. -/
def charSuffixes (l : List Char) : List (List Char) :=
  match l with
  | [] => [[]]
  | _ :: xs => l :: charSuffixes xs

/-- Regular-expression matching as the compute API's name filter applies
it: a pattern starting with `^` must match from the front of the name,
any other pattern may match at any position (substring-capable search). -/
def reMatch (pat s : String) : Bool :=
  match parsePat pat.data with
  | RTok.anchorStart :: ts => matchFrom ts s.data
  | ts => (charSuffixes s.data).any (fun suf => matchFrom ts suf)

/-- Example: an ACTIVE server with one fixed and one floating address. -/
def srvA : Server :=
  Server.mk "id-a" "node-a" "ACTIVE"
    (Jval.obj
      [("net1", Jval.arr [Jval.obj
          [("addr", Jval.str "10.0.0.1"), ("OS-EXT-IPS:type", Jval.str "fixed")]]),
       ("net2", Jval.arr [Jval.obj
          [("addr", Jval.str "1.2.3.4"), ("OS-EXT-IPS:type", Jval.str "floating")]])])
    "" ""

/-- Example: a second ACTIVE server with a different id and address. -/
def srvB : Server :=
  Server.mk "id-b" "node-b" "ACTIVE"
    (Jval.obj
      [("net1", Jval.arr [Jval.obj
          [("addr", Jval.str "10.0.0.2"), ("OS-EXT-IPS:type", Jval.str "fixed")]])])
    "" ""

/-- Example: an ACTIVE server whose address blob holds no networks, so no
fixed address can be extracted. -/
def srvNoFixed : Server :=
  Server.mk "id-c" "node-c" "ACTIVE" (Jval.obj []) "" ""

/-- Example: an ACTIVE server carrying the same fixed address on two
networks, plus legacy access fields. -/
def srvDup : Server :=
  Server.mk "id-d" "node-d" "ACTIVE"
    (Jval.obj
      [("net1", Jval.arr [Jval.obj
          [("addr", Jval.str "10.0.0.1"), ("OS-EXT-IPS:type", Jval.str "fixed")]]),
       ("net2", Jval.arr [Jval.obj
          [("addr", Jval.str "10.0.0.1"), ("OS-EXT-IPS:type", Jval.str "fixed")]])])
    "1.2.3.4" "fe80::1"

/-- Example: an ACTIVE server with no extractable addresses and empty
legacy fields. -/
def srvEmpty : Server :=
  Server.mk "id-e" "node-e" "ACTIVE" (Jval.obj []) "" ""

/-! Helper lemmas. -/

theorem findAddrsLoop_eq (iptype : String) (nets : List (String × Jval)) (ret : List String) :
    findAddrsLoop iptype nets ret = ret ++ nets.filterMap (fun p => firstDescAddr iptype p.2) := by
  induction nets generalizing ret with
  | nil => simp [findAddrsLoop]
  | cons p rest ih =>
    obtain ⟨nm, listblob⟩ := p
    match listblob with
    | Jval.null => simp [findAddrsLoop, firstDescAddr, ih]
    | Jval.bool b => simp [findAddrsLoop, firstDescAddr, ih]
    | Jval.num n => simp [findAddrsLoop, firstDescAddr, ih]
    | Jval.str s => simp [findAddrsLoop, firstDescAddr, ih]
    | Jval.obj o => simp [findAddrsLoop, firstDescAddr, ih]
    | Jval.arr [] => simp [findAddrsLoop, firstDescAddr, ih]
    | Jval.arr (first :: more) =>
      match first with
      | Jval.null => simp [findAddrsLoop, firstDescAddr, ih]
      | Jval.bool b => simp [findAddrsLoop, firstDescAddr, ih]
      | Jval.num n => simp [findAddrsLoop, firstDescAddr, ih]
      | Jval.str s => simp [findAddrsLoop, firstDescAddr, ih]
      | Jval.arr l => simp [findAddrsLoop, firstDescAddr, ih]
      | Jval.obj props =>
        match haddr : lookupKey props "addr" with
        | none => simp [findAddrsLoop, firstDescAddr, haddr, ih]
        | some (Jval.null) => simp [findAddrsLoop, firstDescAddr, haddr, ih]
        | some (Jval.bool b) => simp [findAddrsLoop, firstDescAddr, haddr, ih]
        | some (Jval.num n) => simp [findAddrsLoop, firstDescAddr, haddr, ih]
        | some (Jval.arr l) => simp [findAddrsLoop, firstDescAddr, haddr, ih]
        | some (Jval.obj o) => simp [findAddrsLoop, firstDescAddr, haddr, ih]
        | some (Jval.str addr) =>
          match htyp : lookupKey props "OS-EXT-IPS:type" with
          | none => simp [findAddrsLoop, firstDescAddr, haddr, htyp, ih]
          | some (Jval.null) => simp [findAddrsLoop, firstDescAddr, haddr, htyp, ih]
          | some (Jval.bool b) => simp [findAddrsLoop, firstDescAddr, haddr, htyp, ih]
          | some (Jval.num n) => simp [findAddrsLoop, firstDescAddr, haddr, htyp, ih]
          | some (Jval.arr l) => simp [findAddrsLoop, firstDescAddr, haddr, htyp, ih]
          | some (Jval.obj o) => simp [findAddrsLoop, firstDescAddr, haddr, htyp, ih]
          | some (Jval.str ipt) =>
            by_cases hmatch : ipt = iptype
            · simp [findAddrsLoop, firstDescAddr, haddr, htyp, hmatch, ih,
                List.filterMap_cons]
            · simp [findAddrsLoop, firstDescAddr, haddr, htyp, hmatch, ih,
                List.filterMap_cons]

theorem getServerByNamePages_small (pages : List (List Server)) (acc : List Server)
    (h : (acc ++ pages.flatten).length ≤ 1) :
    getServerByNamePages pages acc = Except.ok (acc ++ pages.flatten) := by
  induction pages generalizing acc with
  | nil => simp [getServerByNamePages]
  | cons page rest ih =>
    have hlen : ¬ (acc ++ page).length > 1 := by
      simp [List.length_append, List.flatten_cons] at h ⊢
      omega
    rw [getServerByNamePages, if_neg hlen]
    rw [ih (acc ++ page) (by simpa [List.append_assoc, List.flatten_cons] using h)]
    simp [List.append_assoc]

theorem getServerByNamePages_big (pages : List (List Server)) (acc : List Server)
    (hacc : acc.length ≤ 1) (h : 2 ≤ (acc ++ pages.flatten).length) :
    getServerByNamePages pages acc = Except.error Err.multipleResults := by
  induction pages generalizing acc with
  | nil => simp [List.length_append] at h; omega
  | cons page rest ih =>
    by_cases hb : (acc ++ page).length > 1
    · rw [getServerByNamePages, if_pos hb]
    · rw [getServerByNamePages, if_neg hb]
      refine ih (acc ++ page) (by omega) ?_
      simpa [List.append_assoc, List.flatten_cons] using h

/-! Claim theorems. -/

/-- C6: for every per-network address blob and requested type tag,
`findAddrs` inspects only the first descriptor of each network's list,
returns exactly the address strings of those first descriptors whose type
tag equals the requested tag, and silently excludes any network whose
entry is malformed or missing a field rather than failing the whole
extraction; illustrated on a blob with an empty list, a missing `addr`,
a non-map descriptor, and a well-formed second descriptor behind a
malformed first one. -/
theorem claim_C6_findAddrs_first_descriptors (nets : List (String × Jval)) (iptype : String) :
    findAddrs (Jval.obj nets) iptype = nets.filterMap (fun p => firstDescAddr iptype p.2)
    ∧ findAddrs (Jval.obj
        [("net1", Jval.arr [Jval.obj
            [("addr", Jval.str "10.0.0.1"), ("OS-EXT-IPS:type", Jval.str "fixed")]]),
         ("net2", Jval.arr []),
         ("net3", Jval.arr [Jval.obj [("OS-EXT-IPS:type", Jval.str "fixed")]]),
         ("net4", Jval.arr [Jval.str "bare"]),
         ("net5", Jval.arr [Jval.null, Jval.obj
            [("addr", Jval.str "10.0.0.9"), ("OS-EXT-IPS:type", Jval.str "fixed")]])])
        "fixed" = ["10.0.0.1"] := by
  constructor
  · simp [findAddrs, findAddrsLoop_eq]
  · rfl

/-- C10: `findAddrs` is total over every runtime shape of the blob: a
blob that is not a map of networks yields the empty list rather than a
fault, and every blob yields some list of strings. -/
theorem claim_C10_findAddrs_total (netblob : Jval) (iptype : String) :
    (isObjMap netblob = false → findAddrs netblob iptype = [])
    ∧ ∃ out : List String, findAddrs netblob iptype = out := by
  refine ⟨?_, ⟨_, rfl⟩⟩
  intro h
  match netblob with
  | Jval.null => rfl
  | Jval.bool b => rfl
  | Jval.num n => rfl
  | Jval.str s => rfl
  | Jval.arr l => rfl
  | Jval.obj l => simp [isObjMap] at h

/-- Witness for C10 at concrete non-map blobs. -/
theorem claim_C10_witness :
    findAddrs Jval.null "fixed" = [] ∧ findAddrs (Jval.str "x") "floating" = [] :=
  ⟨(claim_C10_findAddrs_total Jval.null "fixed").1 rfl,
   (claim_C10_findAddrs_total (Jval.str "x") "floating").1 rfl⟩

/-- C1: `getServerByName` resolves to exactly one server or fails: with
zero matching ACTIVE servers across the pages it returns `ErrNotFound`,
with exactly one it returns that server, with two or more it fails with
`ErrMultipleResults`, and once a prefix of the pagination already holds
two matches the outcome no longer depends on any further pages. -/
theorem claim_C1_getServerByName_exactly_one (pages : List (List Server)) :
    (pages.flatten = [] → getServerByName pages = Except.error Err.notFound)
    ∧ (∀ s : Server, pages.flatten = [s] → getServerByName pages = Except.ok s)
    ∧ (2 ≤ pages.flatten.length → getServerByName pages = Except.error Err.multipleResults)
    ∧ (∀ extra : List (List Server), 2 ≤ pages.flatten.length →
        getServerByName (pages ++ extra) = getServerByName pages) := by
  refine ⟨?_, ?_, ?_, ?_⟩
  · intro h
    rw [getServerByName, getServerByNamePages_small pages [] (by simp [h])]
    simp [h]
  · intro s h
    rw [getServerByName, getServerByNamePages_small pages [] (by simp [h])]
    simp [h]
  · intro h
    rw [getServerByName, getServerByNamePages_big pages [] (by simp) (by simpa using h)]
  · intro extra h
    have e1 : getServerByName pages = Except.error Err.multipleResults := by
      rw [getServerByName, getServerByNamePages_big pages [] (by simp) (by simpa using h)]
    have e2 : getServerByName (pages ++ extra) = Except.error Err.multipleResults := by
      have hlen : 2 ≤ (([] : List Server) ++ (pages ++ extra).flatten).length := by
        simp only [List.nil_append, List.flatten_append, List.length_append]
        omega
      rw [getServerByName, getServerByNamePages_big (pages ++ extra) [] (by simp) hlen]
    rw [e1, e2]

/-- Witness for C1: the zero, one, two-match and early-abort cases at
concrete pages. -/
theorem claim_C1_witness :
    getServerByName ([[]] : List (List Server)) = Except.error Err.notFound
    ∧ getServerByName [[srvA]] = Except.ok srvA
    ∧ getServerByName [[srvA], [srvB]] = Except.error Err.multipleResults
    ∧ getServerByName ([[srvA], [srvB]] ++ [[srvB]]) = getServerByName [[srvA], [srvB]] :=
  ⟨(claim_C1_getServerByName_exactly_one [[]]).1 rfl,
   (claim_C1_getServerByName_exactly_one [[srvA]]).2.1 srvA rfl,
   (claim_C1_getServerByName_exactly_one [[srvA], [srvB]]).2.2.1 (by decide),
   (claim_C1_getServerByName_exactly_one [[srvA], [srvB]]).2.2.2 [[srvB]] (by decide)⟩

/-- C9: when the exact-match lookup succeeds, `ExternalID` returns the
server id and `InstanceID` the id prefixed with a slash, so
`InstanceID = "/" ++ ExternalID`; when the lookup fails, both return the
same error together with the empty-string zero value. -/
theorem claim_C9_instanceID_slash_externalID (pages : List (List Server)) :
    (∀ srv : Server, getServerByName pages = Except.ok srv →
      externalID pages = (srv.id, none)
      ∧ instanceID pages = ("/" ++ srv.id, none)
      ∧ (instanceID pages).1 = "/" ++ (externalID pages).1)
    ∧ (∀ e : Err, getServerByName pages = Except.error e →
      externalID pages = ("", some e) ∧ instanceID pages = ("", some e)) := by
  constructor
  · intro srv h
    simp [externalID, instanceID, h]
  · intro e h
    simp [externalID, instanceID, h]

/-- Witness for C9 at a successful and at a failed lookup. -/
theorem claim_C9_witness :
    externalID [[srvA]] = ("id-a", none)
    ∧ instanceID [[srvA]] = ("/id-a", none)
    ∧ externalID ([] : List (List Server)) = ("", some Err.notFound)
    ∧ instanceID ([] : List (List Server)) = ("", some Err.notFound) := by
  refine ⟨?_, ?_, ?_, ?_⟩
  · simpa using ((claim_C9_instanceID_slash_externalID [[srvA]]).1 srvA rfl).1
  · simpa using ((claim_C9_instanceID_slash_externalID [[srvA]]).1 srvA rfl).2.1
  · exact ((claim_C9_instanceID_slash_externalID []).2 Err.notFound rfl).1
  · exact ((claim_C9_instanceID_slash_externalID []).2 Err.notFound rfl).2

/-- C2 (code bug): `getServerByAddress` does not skip an ACTIVE server
with zero extractable fixed addresses: it indexes the empty extracted
list and panics, aborting the whole lookup even though another listed
server matches the queried address. -/
theorem claim_C2_getServerByAddress_faults :
    getServerByAddress [[srvNoFixed, srvB]] "10.0.0.2" = AddrLookup.indexOutOfRange := rfl

theorem selectAddress_eq_firstNonEmpty (srv : Server) :
    selectAddress srv =
      match firstNonEmpty (addrCandidates srv) with
      | some a => Except.ok a
      | none => Except.error Err.noAddressFound := by
  unfold selectAddress addrCandidates
  rcases hf : findAddrs srv.addresses "fixed" with _ | ⟨a1, r1⟩ <;>
    rcases hg : findAddrs srv.addresses "floating" with _ | ⟨a2, r2⟩
  · by_cases h3 : srv.accessIPv4 = "" <;> by_cases h4 : srv.accessIPv6 = "" <;>
      simp [firstNonEmpty, h3, h4]
  · by_cases h2 : a2 = "" <;> by_cases h3 : srv.accessIPv4 = "" <;>
      by_cases h4 : srv.accessIPv6 = "" <;>
      simp [firstNonEmpty, h2, h3, h4]
  · by_cases h1 : a1 = "" <;> by_cases h3 : srv.accessIPv4 = "" <;>
      by_cases h4 : srv.accessIPv6 = "" <;>
      simp [firstNonEmpty, h1, h3, h4]
  · by_cases h1 : a1 = "" <;> by_cases h2 : a2 = "" <;>
      by_cases h3 : srv.accessIPv4 = "" <;> by_cases h4 : srv.accessIPv6 = "" <;>
      simp [firstNonEmpty, h1, h2, h3, h4]

theorem firstNonEmpty_eq_none (l : List String) :
    firstNonEmpty l = none ↔ ∀ c ∈ l, c = "" := by
  induction l with
  | nil => simp [firstNonEmpty]
  | cons c rest ih =>
    by_cases hc : c = ""
    · simp [firstNonEmpty, hc, ih]
    · simp [firstNonEmpty, hc]

/-- C3: after a successful name lookup, the address-resolution entry
point returns the first non-empty of, in order, the first extracted
fixed address, the first extracted floating address, the legacy
`AccessIPv4` field and the legacy `AccessIPv6` field, and it fails with
`ErrNoAddressFound` exactly when all four are empty. -/
theorem claim_C3_address_priority (pages : List (List Server)) (srv : Server)
    (h : getServerByName pages = Except.ok srv) :
    (∀ a : String, firstNonEmpty (addrCandidates srv) = some a →
        getAddressByName pages = Except.ok a)
    ∧ (getAddressByName pages = Except.error Err.noAddressFound ↔
        ∀ c ∈ addrCandidates srv, c = "") := by
  have hsel : getAddressByName pages = selectAddress srv := by
    simp [getAddressByName, h]
  rw [hsel, selectAddress_eq_firstNonEmpty]
  constructor
  · intro a ha
    simp [ha]
  · cases hfind : firstNonEmpty (addrCandidates srv) with
    | none =>
      exact ⟨fun _ => (firstNonEmpty_eq_none (addrCandidates srv)).mp hfind, fun _ => rfl⟩
    | some a =>
      constructor
      · intro hcontra
        simp at hcontra
      · intro hall
        have hn := (firstNonEmpty_eq_none (addrCandidates srv)).mpr hall
        rw [hfind] at hn
        cases hn

/-- Witness for C3: the fixed address wins on a server carrying one, and
a server with no addresses at all yields `ErrNoAddressFound`. -/
theorem claim_C3_witness :
    getAddressByName [[srvDup]] = Except.ok "10.0.0.1"
    ∧ getAddressByName [[srvEmpty]] = Except.error Err.noAddressFound := by
  constructor
  · exact (claim_C3_address_priority [[srvDup]] srvDup rfl).1 "10.0.0.1" rfl
  · exact (claim_C3_address_priority [[srvEmpty]] srvEmpty rfl).2.mpr (by decide)

/-- C5 counterexample: a server exposing the same fixed address on two
networks produces that (kind, address) pair twice in the `NodeAddresses`
result, so duplicates are not suppressed everywhere in the sequence as
the claim states. -/
theorem claim_C5_counterexample :
    nodeAddresses [[srvDup]] = Except.ok
      [NodeAddress.mk NodeAddressType.internalIP "10.0.0.1",
       NodeAddress.mk NodeAddressType.internalIP "10.0.0.1",
       NodeAddress.mk NodeAddressType.externalIP "fe80::1",
       NodeAddress.mk NodeAddressType.externalIP "1.2.3.4"]
    ∧ ¬ List.Nodup
      [NodeAddress.mk NodeAddressType.internalIP "10.0.0.1",
       NodeAddress.mk NodeAddressType.internalIP "10.0.0.1",
       NodeAddress.mk NodeAddressType.externalIP "fe80::1",
       NodeAddress.mk NodeAddressType.externalIP "1.2.3.4"] := by
  constructor
  · rfl
  · decide

/-- C5 amended: the `NodeAddresses` sequence is in insertion order —
fixed addresses as `InternalIP` first, then floating addresses as
`ExternalIP`, then the legacy fields (`AccessIPv6` before `AccessIPv4`)
as `ExternalIP` — and only the legacy entries are suppressed when a
(kind, address) duplicate already occurs; duplicates among the extracted
fixed and floating addresses are kept. -/
theorem claim_C5_amended_insertion_order (pages : List (List Server)) (srv : Server)
    (h : getServerByName pages = Except.ok srv) :
    nodeAddresses pages = Except.ok (fixedPart srv ++ floatingPart srv ++ legacyPart srv)
    ∧ (∀ na ∈ fixedPart srv, na.type = NodeAddressType.internalIP)
    ∧ (∀ na ∈ floatingPart srv, na.type = NodeAddressType.externalIP)
    ∧ (∀ na ∈ legacyPart srv, na ∉ fixedPart srv ++ floatingPart srv) := by
  refine ⟨?_, ?_, ?_, ?_⟩
  · simp only [nodeAddresses, h, addToNodeAddresses, List.foldl_cons, List.foldl_nil]
    by_cases h6 : NodeAddress.mk NodeAddressType.externalIP srv.accessIPv6 ∈
        fixedPart srv ++ floatingPart srv
    · by_cases h4 : NodeAddress.mk NodeAddressType.externalIP srv.accessIPv4 ∈
          fixedPart srv ++ floatingPart srv
      · simp [fixedPart, floatingPart, legacyPart, h6, h4] at *
        simp [h6, h4]
      · simp [fixedPart, floatingPart, legacyPart, h6, h4] at *
        simp [h6, h4]
    · by_cases h4 : NodeAddress.mk NodeAddressType.externalIP srv.accessIPv4 ∈
          (fixedPart srv ++ floatingPart srv) ++
            [NodeAddress.mk NodeAddressType.externalIP srv.accessIPv6]
      · simp [fixedPart, floatingPart, legacyPart, h6, h4] at *
        simp [h6, h4, List.append_assoc]
      · simp [fixedPart, floatingPart, legacyPart, h6, h4] at *
        simp [h6, h4, List.append_assoc]
  · intro na hna
    simp [fixedPart] at hna
    obtain ⟨a, _, rfl⟩ := hna
    rfl
  · intro na hna
    simp [floatingPart] at hna
    obtain ⟨a, _, rfl⟩ := hna
    rfl
  · intro na hna
    simp only [legacyPart] at hna
    by_cases h6 : NodeAddress.mk NodeAddressType.externalIP srv.accessIPv6 ∈
        fixedPart srv ++ floatingPart srv
    · simp [h6] at hna
      obtain ⟨⟨hn1, hn2⟩, rfl⟩ := hna
      simp [List.mem_append, hn1, hn2]
    · simp [h6] at hna
      rcases hna with hna | hna
      · subst hna
        exact h6
      · obtain ⟨⟨hn1, hn2, _⟩, rfl⟩ := hna
        simp [List.mem_append, hn1, hn2]

/-- Witness for C5 amended at a concrete lookup. -/
theorem claim_C5_witness :
    nodeAddresses [[srvDup]] =
      Except.ok (fixedPart srvDup ++ floatingPart srvDup ++ legacyPart srvDup) :=
  (claim_C5_amended_insertion_order [[srvDup]] srvDup rfl).1

/-- C7: the instance-identity resolver returns the trimmed marker-file
content, independent of any HTTP response, whenever that content trims
to a non-empty string; a missing file behaves exactly like an empty one
and falls back to the metadata request, which requires status 200 and
then extracts the `uuid` field, failing when it is absent, non-string,
or empty. -/
theorem claim_C7_instance_identity :
    (∀ resp : Option HttpResp, readInstanceID (some "  abc123\n") resp = Except.ok "abc123")
    ∧ (∀ content : String, ∀ resp : Option HttpResp, trimSpace content ≠ "" →
        readInstanceID (some content) resp = Except.ok (trimSpace content))
    ∧ (∀ resp : Option HttpResp, readInstanceID none resp = readInstanceID (some "") resp)
    ∧ (∀ r : HttpResp, r.status ≠ 200 →
        readInstanceID none (some r) = Except.error (MetaErr.unexpectedStatus r.status))
    ∧ (∀ body : Option Jval,
        readInstanceID none (some (HttpResp.mk 200 body)) = parseMetadataUUID body)
    ∧ (∀ props : List (String × Jval), lookupKey props "uuid" = none →
        parseMetadataUUID (some (Jval.obj props)) = Except.error MetaErr.emptyUUID)
    ∧ (∀ props : List (String × Jval), lookupKey props "uuid" = some (Jval.str "") →
        parseMetadataUUID (some (Jval.obj props)) = Except.error MetaErr.emptyUUID)
    ∧ (∀ props : List (String × Jval), ∀ u : String,
        lookupKey props "uuid" = some (Jval.str u) → u ≠ "" →
        parseMetadataUUID (some (Jval.obj props)) = Except.ok u) := by
  refine ⟨?_, ?_, ?_, ?_, ?_, ?_, ?_, ?_⟩
  · intro resp
    rfl
  · intro content resp h
    simp only [readInstanceID]
    rw [if_pos h]
  · intro resp
    rfl
  · intro r h
    simp only [readInstanceID]
    rw [if_pos h]
  · intro body
    rfl
  · intro props h
    simp [parseMetadataUUID, h]
  · intro props h
    simp [parseMetadataUUID, h]
  · intro props u h hu
    simp [parseMetadataUUID, h, hu]

/-- Witness for C7: the spec's concrete examples — a marker file with
whitespace, an absent file with a 404 metadata response, and metadata
bodies with an absent, empty, and present uuid. -/
theorem claim_C7_witness :
    readInstanceID (some "  abc123\n") none = Except.ok "abc123"
    ∧ readInstanceID (some "x") none = Except.ok "x"
    ∧ readInstanceID none (some (HttpResp.mk 404 none)) =
        Except.error (MetaErr.unexpectedStatus 404)
    ∧ parseMetadataUUID (some (Jval.obj [("flavor", Jval.str "m1")])) =
        Except.error MetaErr.emptyUUID
    ∧ parseMetadataUUID (some (Jval.obj [("uuid", Jval.str "")])) =
        Except.error MetaErr.emptyUUID
    ∧ parseMetadataUUID (some (Jval.obj [("uuid", Jval.str "xyz")])) = Except.ok "xyz" := by
  refine ⟨claim_C7_instance_identity.1 none, ?_, ?_, ?_, ?_, ?_⟩
  · simpa using claim_C7_instance_identity.2.1 "x" none (by decide)
  · exact claim_C7_instance_identity.2.2.2.1 (HttpResp.mk 404 none) (by decide)
  · exact claim_C7_instance_identity.2.2.2.2.2.1 [("flavor", Jval.str "m1")] rfl
  · exact claim_C7_instance_identity.2.2.2.2.2.2.1 [("uuid", Jval.str "")] rfl
  · exact claim_C7_instance_identity.2.2.2.2.2.2.2 [("uuid", Jval.str "xyz")] "xyz" rfl
      (by decide)

/-- C8: when authentication and both endpoint resolutions succeed, a
failure of instance-identity resolution is not fatal: `newOpenStack`
still succeeds and the constructed provider carries an empty local
instance id. -/
theorem claim_C8_identity_failure_not_fatal (provider nw cp : Nat) (region : String)
    (file : Option String) (resp : Option HttpResp) (e : MetaErr)
    (h : readInstanceID file resp = Except.error e) :
    newOpenStack (some provider) file resp (some nw) (some cp) region =
      Except.ok (OpenStackProvider.mk provider cp nw region "") := by
  simp [newOpenStack, h]

/-- Witness for C8: marker file absent and metadata endpoint answering
404 still yields a constructed provider with an empty identifier. -/
theorem claim_C8_witness :
    newOpenStack (some 0) none (some (HttpResp.mk 404 none)) (some 1) (some 2) "region-a" =
      Except.ok (OpenStackProvider.mk 0 2 1 "region-a" "") :=
  claim_C8_identity_failure_not_fatal 0 1 2 "region-a" none (some (HttpResp.mk 404 none))
    (MetaErr.unexpectedStatus 404) rfl

theorem parsePat_backslash (x : Char) (xs : List Char) :
    parsePat ('\\' :: x :: xs) = RTok.lit x :: parsePat xs := rfl

theorem parsePat_plain (c : Char) (xs : List Char) (h1 : c ≠ '\\') (h2 : c ≠ '.')
    (h3 : c ≠ '^') (h4 : c ≠ '$') :
    parsePat (c :: xs) = RTok.lit c :: parsePat xs := by
  unfold parsePat
  simp only [h1, h2, h3, h4, if_false, ite_false]
  rw [parsePat.eq_def]

theorem parsePat_quoteMeta_append (l : List Char) :
    parsePat (quoteMetaChars l ++ ['$']) = l.map RTok.lit ++ [RTok.anchorEnd] := by
  induction l with
  | nil => rfl
  | cons c rest ih =>
    by_cases hc : c ∈ specialChars
    · rw [quoteMetaChars, if_pos hc]
      show parsePat ('\\' :: c :: (quoteMetaChars rest ++ ['$'])) = _
      rw [parsePat_backslash, ih]
      rfl
    · have h1 : c ≠ '\\' := fun he => hc (by simp [specialChars, he])
      have h2 : c ≠ '.' := fun he => hc (by simp [specialChars, he])
      have h3 : c ≠ '^' := fun he => hc (by simp [specialChars, he])
      have h4 : c ≠ '$' := fun he => hc (by simp [specialChars, he])
      rw [quoteMetaChars, if_neg hc]
      show parsePat (c :: (quoteMetaChars rest ++ ['$'])) = _
      rw [parsePat_plain c _ h1 h2 h3 h4, ih]
      rfl

theorem matchFrom_lits (l m : List Char) :
    matchFrom (l.map RTok.lit ++ [RTok.anchorEnd]) m = true ↔ l = m := by
  induction l generalizing m with
  | nil =>
    match m with
    | [] => simp [matchFrom]
    | x :: xs => simp [matchFrom]
  | cons c rest ih =>
    match m with
    | [] => simp [matchFrom]
    | x :: xs => simp [matchFrom, ih, Bool.and_eq_true]

theorem parsePat_caret (xs : List Char) :
    parsePat ('^' :: xs) = RTok.anchorStart :: parsePat xs := by
  unfold parsePat
  simp only [if_neg (show ¬ ('^' : Char) = '\\' by decide),
    if_neg (show ¬ ('^' : Char) = '.' by decide), if_pos (rfl : ('^' : Char) = '^'),
    ite_true]
  rw [← parsePat.eq_def]

theorem filterData (name : String) :
    (getServerByNameFilter name).data = '^' :: (quoteMetaChars name.data ++ ['$']) := by
  have hcaret : ("^" : String).data = ['^'] := rfl
  have hdollar : ("$" : String).data = ['$'] := rfl
  show ("^" ++ quoteMeta name ++ "$").data = _
  rw [String.data_append, String.data_append, hcaret, hdollar]
  simp [quoteMeta, List.append_assoc]

/-- C4: `getServerByName` sends the filter `"^" ++ QuoteMeta(name) ++ "$"`
to the list API; under the API's regular-expression search semantics this
anchored, metacharacter-escaped pattern matches exactly the literal name,
so `"a.b"` does not match a server named `"axb"`, although the same
pattern without escaping would. -/
theorem claim_C4_regex_quoting (name s : String) :
    getServerByNameFilter name = "^" ++ quoteMeta name ++ "$"
    ∧ (reMatch (getServerByNameFilter name) s = true ↔ s = name)
    ∧ reMatch (getServerByNameFilter "a.b") "axb" = false
    ∧ reMatch "^a.b$" "axb" = true := by
  refine ⟨rfl, ?_, by rfl, by rfl⟩
  have hp : parsePat (getServerByNameFilter name).data
      = RTok.anchorStart :: (name.data.map RTok.lit ++ [RTok.anchorEnd]) := by
    rw [filterData, parsePat_caret, parsePat_quoteMeta_append]
  unfold reMatch
  rw [hp]
  show matchFrom (name.data.map RTok.lit ++ [RTok.anchorEnd]) s.data = true ↔ s = name
  rw [matchFrom_lits]
  constructor
  · intro h
    exact (String.ext h).symm
  · intro h
    rw [h]
